import Mathlib

/-!
Shallow embedding of the GPS spoofing-detection core of the repository
(`gps-spoofing/Autonomous Switch`): the speed-based detector
(`detector_speed.py`), the SNR/constellation detector (`detector_snr.py`),
and the arbitration loop of `Final_Map_Project.py` that merges their
verdicts into the one-shot autonomous-mode switch.

Conventions of the embedding:
* Python floats become `ℚ`; timestamps become `ℚ` (seconds).
* Python dicts become association lists `List (ℕ × _)` with Python's
  insertion-order update semantics (`setKey`): an existing key keeps its
  slot, a fresh key is appended at the end.
* The external geodesic-distance library call is a function parameter
  `dist : ℚ × ℚ → ℚ × ℚ → ℚ`.
* NMEA parsing happens outside the embedded core: a GGA sentence arrives
  as an already-parsed `Fix`, a GSV sentence as the list of its valid
  `(prn, snr)` pairs (a non-GSV or unparseable line is the empty batch,
  which the source treats identically by skipping the folding loop).
-/

namespace DetectorSpeed

/-- Configuration constants of `detector_speed.py`. -/
def STABILIZATION_SPEED : ℚ := 8

def SPOOFING_SPEED_THRESHOLD : ℚ := 6

def STABILIZATION_COUNT : ℕ := 4

def DISTANCE_JUMP_THRESHOLD : ℚ := 30

/-- A parsed GGA fix: quality code, latitude, longitude, timestamp. -/
structure Fix where
  quality : ℕ
  lat : ℚ
  lon : ℚ
  timestamp : ℚ
deriving Repr, DecidableEq

/-- Return states of `SpeedDetector.process` (the `ERROR` state only arises
from parse exceptions, which happen outside the embedded core). -/
inductive SpeedVerdict
  | noFix
  | stabilizing
  | speedAnomaly
  | spoofingAnalysis
  | spoofingConfirmed
  | normal
deriving Repr, DecidableEq

/-- Mutable state of the `SpeedDetector` class. -/
structure SpeedState where
  last_position : Option (ℚ × ℚ)
  last_time : Option ℚ
  stabilized : Bool
  stabilization_counter : ℕ
  spoofing_phase : Bool
  spoofed_stabilization_counter : ℕ
  spoof_confirmed : Bool
deriving Repr, DecidableEq

/-- `SpeedDetector.__init__`. -/
def initSpeedState : SpeedState :=
  ⟨none, none, false, 0, false, 0, false⟩

/-- Return value of one `process` call: verdict, reported speed value,
spoofing-detected flag, and the post-call detector state. -/
structure SpeedResult where
  verdict : SpeedVerdict
  value : Option ℚ
  detected : Bool
  state : SpeedState
deriving Repr, DecidableEq

/-- Elapsed time between the stored reference time and the current fix.
Both the `datetime` path and the `time.time()` fallback path of the source
compute `current - last` when a reference time exists, and `1` otherwise. -/
def calcDt (last_time : Option ℚ) (current_time : ℚ) : ℚ :=
  match last_time with
  | some t => current_time - t
  | none => 1

/-- `speed = dist / dt if dt > 0 else 0` (line 60 of `detector_speed.py`). -/
def calcSpeed (dist dt : ℚ) : ℚ :=
  if 0 < dt then dist / dt else 0

/-- `SpeedDetector.process`, for an already-parsed GGA fix. -/
def SpeedDetector.process (dist : ℚ × ℚ → ℚ × ℚ → ℚ) (s : SpeedState)
    (fix : Fix) : SpeedResult :=
  if fix.quality = 0 then
    ⟨.noFix, none, false, s⟩
  else
    let current_position : ℚ × ℚ := (fix.lat, fix.lon)
    let current_time := fix.timestamp
    let dt := calcDt s.last_time current_time
    match s.last_position with
    | some last_pos =>
      let d := dist last_pos current_position
      let speed := calcSpeed d dt
      if s.stabilized = false then
        if speed < STABILIZATION_SPEED then
          let c := s.stabilization_counter + 1
          ⟨.stabilizing, some speed, false,
            { s with stabilization_counter := c,
                     stabilized := decide (STABILIZATION_COUNT ≤ c) }⟩
        else
          ⟨.stabilizing, some speed, false, s⟩
      else if s.spoofing_phase = false ∧ SPOOFING_SPEED_THRESHOLD < speed ∧
          DISTANCE_JUMP_THRESHOLD < d then
        ⟨.speedAnomaly, some speed, false, { s with spoofing_phase := true }⟩
      else if s.spoofing_phase = true ∧ s.spoof_confirmed = false then
        if speed < STABILIZATION_SPEED then
          let c := s.spoofed_stabilization_counter + 1
          if STABILIZATION_COUNT ≤ c then
            ⟨.spoofingConfirmed, some speed, true,
              { s with spoofed_stabilization_counter := c,
                       spoof_confirmed := true }⟩
          else
            ⟨.spoofingAnalysis, some speed, false,
              { s with spoofed_stabilization_counter := c }⟩
        else
          ⟨.spoofingAnalysis, some speed, false, s⟩
      else
        ⟨.normal, none, false,
          { s with last_position := some current_position,
                   last_time := some current_time }⟩
    | none =>
      ⟨.normal, none, false,
        { s with last_position := some current_position,
                 last_time := some current_time }⟩

/-- Feeding a whole sequence of fixes through the detector, collecting each
call's result and the final state. -/
def SpeedDetector.run (dist : ℚ × ℚ → ℚ × ℚ → ℚ) (s : SpeedState) :
    List Fix → List SpeedResult × SpeedState
  | [] => ([], s)
  | f :: fs =>
    let r := SpeedDetector.process dist s f
    let rest := SpeedDetector.run dist r.state fs
    (r :: rest.1, rest.2)

/-- Number of calls in a result list that returned `SPOOFING_CONFIRMED`. -/
def confirmedCount (rs : List SpeedResult) : ℕ :=
  (rs.filter fun r => decide (r.verdict = .spoofingConfirmed)).length

end DetectorSpeed

namespace DetectorSpeed

/-- Trivial geodesic stub: every pair of points is at distance zero. -/
def distZero : ℚ × ℚ → ℚ × ℚ → ℚ := fun _ _ => 0

/-- Geodesic stub that reads the distance off the latitude difference,
used to drive the detector through its phases on concrete traces. -/
def distDelta : ℚ × ℚ → ℚ × ℚ → ℚ := fun a b => b.1 - a.1

/-- Concrete fix trace that walks the detector through stabilization, a
speed anomaly, the analysis phase and the confirmation. -/
def confirmTrace : List Fix :=
  [⟨1, 0, 0, 0⟩, ⟨1, 0, 0, 1⟩, ⟨1, 0, 0, 2⟩, ⟨1, 0, 0, 3⟩, ⟨1, 0, 0, 4⟩,
   ⟨1, 100, 0, 5⟩, ⟨1, 0, 0, 6⟩, ⟨1, 0, 0, 7⟩, ⟨1, 0, 0, 8⟩, ⟨1, 0, 0, 9⟩]

/-- Reachability invariant of the speed detector: a confirmed spoof implies
the detector had stabilized and entered the suspect phase. -/
def InvSp (s : SpeedState) : Prop :=
  s.spoof_confirmed = true → s.stabilized = true ∧ s.spoofing_phase = true

end DetectorSpeed

namespace DetectorSnr

/-- Configuration constants of `detector_snr.py`. -/
def SNR_JUMP_THRESHOLD : ℚ := 6

def NEW_PRNS_THRESHOLD : ℕ := 4

def DISAPPEARED_PRNS_THRESHOLD : ℕ := 4

def ANOMALY_CONFIRMATION_COUNT : ℕ := 2

def HISTORY_LENGTH : ℕ := 3

def INSTANT_SHOCK_THRESHOLD : ℕ := 5

def SNR_MIN_THRESHOLD : ℚ := 23

def MIN_SAT_FOR_ANALYSIS : ℕ := 4

def STABILIZATION_DURATION : ℚ := 60

/-- A PRN-keyed dictionary of SNR values, embedding a Python dict with its
insertion order. -/
def SatMap : Type := List (ℕ × ℚ)

instance : DecidableEq SatMap := by unfold SatMap; infer_instance

/-- Python dict update `m[p] = v`: replace the value at an existing key in
place, or append a fresh key at the end. -/
def setKey {β : Type} : List (ℕ × β) → ℕ → β → List (ℕ × β)
  | [], p, v => [(p, v)]
  | (q, w) :: rest, p, v =>
    if q = p then (p, v) :: rest else (q, w) :: setKey rest p v

/-- Python dict lookup `m.get(p)`. -/
def getKey? {β : Type} : List (ℕ × β) → ℕ → Option β
  | [], _ => none
  | (q, w) :: rest, p => if q = p then some w else getKey? rest p

/-- Key list of a dictionary (`list(m)` in Python). -/
def keys {β : Type} (m : List (ℕ × β)) : List ℕ :=
  m.map Prod.fst

/-- One `(prn, snr)` entry folded into `all_sats` (every observed PRN). -/
def updAll (m : SatMap) (e : ℕ × ℚ) : SatMap :=
  setKey m e.1 e.2

/-- One `(prn, snr)` entry folded into `filtered_sats` (only entries with
`snr >= SNR_MIN_THRESHOLD` are written; others leave the map untouched). -/
def updFiltered (m : SatMap) (e : ℕ × ℚ) : SatMap :=
  if SNR_MIN_THRESHOLD ≤ e.2 then setKey m e.1 e.2 else m

/-- The per-sentence folding loop of `process_gsv_for_snr` (lines 84-92):
each valid `(prn, snr)` pair is written into `all_sats`, and into
`filtered_sats` when at or above the reliability floor. -/
def ingest (all filtered : SatMap) (batch : List (ℕ × ℚ)) : SatMap × SatMap :=
  batch.foldl (fun acc e => (updAll acc.1 e, updFiltered acc.2 e))
    (all, filtered)

/-- `deque(maxlen=HISTORY_LENGTH)` append: add at the right, dropping from
the left once the window is full. -/
def appendBounded (w : List ℚ) (x : ℚ) : List ℚ :=
  let w1 := w ++ [x]
  w1.drop (w1.length - HISTORY_LENGTH)

/-- `SNRDetector.update_snr_history`: append each PRN's SNR from `data`
into its bounded window (creating the window if absent). -/
def update_snr_history (hist : List (ℕ × List ℚ)) (data : SatMap) :
    List (ℕ × List ℚ) :=
  data.foldl
    (fun h e => setKey h e.1 (appendBounded ((getKey? h e.1).getD []) e.2))
    hist

/-- `SNRDetector.get_averaged_snr`: sliding mean per PRN with a nonempty
window (the source computes this but never reads it afterwards). -/
def get_averaged_snr (hist : List (ℕ × List ℚ)) : SatMap :=
  hist.filterMap fun e =>
    if e.2 = [] then none else some (e.1, e.2.sum / (e.2.length : ℚ))

/-- Cause messages of `compare_sat_data`, with the human-readable string
payloads abstracted to their structured content. -/
inductive Cause
  | newSats (n : ℕ)
  | disappearedSats (n : ℕ)
  | snrJumps (jumps : List (ℕ × ℚ))
  | constellationShock
deriving Repr, DecidableEq

/-- `set(curr) - set(prev)` on the PRN keys. -/
def newPRNs (prev curr : SatMap) : List ℕ :=
  ((keys curr).dedup).filter fun p => decide (p ∉ keys prev)

/-- `set(prev) - set(curr)` on the PRN keys. -/
def lostPRNs (prev curr : SatMap) : List ℕ :=
  ((keys prev).dedup).filter fun p => decide (p ∉ keys curr)

/-- The SNR-jump scan of `compare_sat_data` (lines 60-64): for PRNs in both
maps, flag `|curr - prev| >= max(SNR_JUMP_THRESHOLD, 0.25 * prev)`.
Iteration is in the current map's key order (the source iterates an
unordered Python set; only membership is observable downstream). -/
def snrJumpList (prev curr : SatMap) : List (ℕ × ℚ) :=
  ((keys curr).dedup).filterMap fun p =>
    match getKey? prev p, getKey? curr p with
    | some pv, some cv =>
      if max SNR_JUMP_THRESHOLD (1 / 4 * pv) ≤ |cv - pv| then
        some (p, |cv - pv|)
      else none
    | _, _ => none

/-- `SNRDetector.compare_sat_data`: causes plus the instant-shock flag. -/
def compare_sat_data (prev curr : SatMap) : List Cause × Bool :=
  let np := newPRNs prev curr
  let lp := lostPRNs prev curr
  let c1 : List Cause :=
    if NEW_PRNS_THRESHOLD ≤ np.length then [.newSats np.length] else []
  let c2 : List Cause :=
    if DISAPPEARED_PRNS_THRESHOLD ≤ lp.length then
      [.disappearedSats lp.length]
    else []
  let jumps := snrJumpList prev curr
  let c3 : List Cause := if jumps = [] then [] else [.snrJumps jumps]
  let spoof_now : Bool :=
    decide (INSTANT_SHOCK_THRESHOLD ≤ np.length) &&
      decide (INSTANT_SHOCK_THRESHOLD ≤ lp.length)
  let c4 : List Cause := if spoof_now then [.constellationShock] else []
  (c1 ++ c2 ++ c3 ++ c4, spoof_now)

/-- Return states of `process_gsv_for_snr`. -/
inductive SNRVerdict
  | stabilizing
  | insufficientSats
  | spoofingDetected
  | normal
deriving Repr, DecidableEq

/-- Mutable state of the `SNRDetector` class. -/
structure SNRState where
  snr_history : List (ℕ × List ℚ)
  previous_avg_sats : SatMap
  anomaly_counter : ℕ
  stabilization_start_time : ℚ
  all_sats : SatMap
  filtered_sats : SatMap
deriving DecidableEq

/-- `SNRDetector.__init__`, started at wall-clock time `t0`. -/
def initSNRState (t0 : ℚ) : SNRState :=
  ⟨[], [], 0, t0, [], []⟩

/-- Return value of one `process_gsv_for_snr` call. -/
structure SNRResult where
  verdict : SNRVerdict
  causes : List Cause
  detected : Bool
  state : SNRState
deriving DecidableEq

/-- `SNRDetector.process_gsv_for_snr` at wall-clock time `now`, for the
valid `(prn, snr)` pairs of one GSV sentence. -/
def SNRDetector.process_gsv_for_snr (s : SNRState) (batch : List (ℕ × ℚ))
    (now : ℚ) : SNRResult :=
  let ing := ingest s.all_sats s.filtered_sats batch
  let s1 := { s with all_sats := ing.1, filtered_sats := ing.2 }
  let elapsed := now - s.stabilization_start_time
  if elapsed < STABILIZATION_DURATION then
    ⟨.stabilizing, [], false, s1⟩
  else if ing.2.length < MIN_SAT_FOR_ANALYSIS then
    ⟨.insufficientSats, [], false, s1⟩
  else
    let hist1 := update_snr_history s1.snr_history ing.1
    let _averaged := get_averaged_snr hist1
    let s2 := { s1 with snr_history := hist1 }
    if s2.previous_avg_sats = [] then
      ⟨.normal, [], false, { s2 with previous_avg_sats := ing.2 }⟩
    else
      let cmp := compare_sat_data s2.previous_avg_sats ing.2
      let counter := if cmp.1 = [] then 0 else s2.anomaly_counter + 1
      let s3 := { s2 with anomaly_counter := counter }
      if ANOMALY_CONFIRMATION_COUNT ≤ counter ∨ cmp.2 = true then
        ⟨.spoofingDetected, cmp.1, true, { s3 with previous_avg_sats := ing.2 }⟩
      else
        ⟨.normal, [], false, { s3 with previous_avg_sats := ing.2 }⟩

/-- Feeding a sequence of `(batch, now)` events through the detector. -/
def SNRDetector.run (s : SNRState) :
    List (List (ℕ × ℚ) × ℚ) → List SNRResult × SNRState
  | [] => ([], s)
  | (b, t) :: evs =>
    let r := SNRDetector.process_gsv_for_snr s b t
    let rest := SNRDetector.run r.state evs
    (r :: rest.1, rest.2)

/-- The most recent above-floor SNR an observation stream reported for a
PRN, if that PRN was ever reported at or above the reliability floor. -/
def latestAboveFloor (obs : List (ℕ × ℚ)) (p : ℕ) : Option ℚ :=
  ((obs.filter fun e => decide (e.1 = p) && decide (SNR_MIN_THRESHOLD ≤ e.2)).getLast?).map
    Prod.snd

/-- Reachability invariant of the SNR detector: every PRN of the previous
filtered snapshot is still a key of the (grow-only) filtered map. -/
def InvSnr (s : SNRState) : Prop :=
  ∀ p, p ∈ keys s.previous_avg_sats → p ∈ keys s.filtered_sats

/-- Warm-up events for the concrete traces: six strong satellites reported
at time 0 (still inside the warm-up window). -/
def snrBatch6 : List (ℕ × ℚ) :=
  [(1, 30), (2, 30), (3, 30), (4, 30), (5, 30), (6, 30)]

/-- Five brand-new strong satellites, with none of the original six present
in the sentence (the wholesale-replacement scenario of claim C4). -/
def snrBatchNew5 : List (ℕ × ℚ) :=
  [(7, 30), (8, 30), (9, 30), (10, 30), (11, 30)]

/-- Concrete event trace for claim C4: warm-up report, first post-warm-up
comparison baseline, then a wholesale constellation replacement. -/
def shockTrace : List (List (ℕ × ℚ) × ℚ) :=
  [(snrBatch6, 0), (snrBatch6, 61), (snrBatchNew5, 62)]

/-- The six-satellite map accumulated by the warm-up report. -/
def snrSat6 : SatMap :=
  [(1, 30), (2, 30), (3, 30), (4, 30), (5, 30), (6, 30)]

/-- The eleven-satellite map after the replacement batch (the six stale
entries never leave the accumulated filtered map). -/
def snrSat11 : SatMap :=
  [(1, 30), (2, 30), (3, 30), (4, 30), (5, 30), (6, 30),
   (7, 30), (8, 30), (9, 30), (10, 30), (11, 30)]

/-- Detector state after the warm-up call of `shockTrace`. -/
def shockS1 : SNRState := ⟨[], [], 0, 0, snrSat6, snrSat6⟩

/-- Detector state after the baseline call of `shockTrace`. -/
def shockS2 : SNRState :=
  ⟨[(1, [30]), (2, [30]), (3, [30]), (4, [30]), (5, [30]), (6, [30])],
   snrSat6, 0, 0, snrSat6, snrSat6⟩

/-- Detector state after the replacement call of `shockTrace`. -/
def shockS3 : SNRState :=
  ⟨[(1, [30, 30]), (2, [30, 30]), (3, [30, 30]), (4, [30, 30]),
    (5, [30, 30]), (6, [30, 30]), (7, [30]), (8, [30]), (9, [30]),
    (10, [30]), (11, [30])],
   snrSat11, 1, 0, snrSat11, snrSat11⟩

end DetectorSnr

namespace FinalMapProject

/-- Startup grace period of `Final_Map_Project.py` (seconds). -/
def STABILIZATION_DURATION : ℚ := 30

/-- One NMEA line as routed by `gps_reader`: a parsed GGA fix or the valid
`(prn, snr)` pairs of a GSV sentence. -/
inductive NMEALine
  | gga (fix : DetectorSpeed.Fix)
  | gsv (batch : List (ℕ × ℚ))

/-- The mutable state touched by one `gps_reader` iteration: the two
detector objects and the `autonomous_mode` flag (`false` = Tracking,
`true` = Fallback). -/
structure SysState where
  speed : DetectorSpeed.SpeedState
  snr : DetectorSnr.SNRState
  autonomous_mode : Bool

/-- Process start: fresh detectors, `autonomous_mode = False`. -/
def initSysState (t0 : ℚ) : SysState :=
  ⟨DetectorSpeed.initSpeedState, DetectorSnr.initSNRState t0, false⟩

/-- One iteration of the `gps_reader` loop at wall-clock time `now`: the
line is routed to its detector, and on a confirmed verdict with the mode
still Tracking and the startup grace period elapsed, the mode switches to
Fallback. The source returns from the loop right after the switch; the
embedding keeps stepping, with the switch condition requiring the Tracking
mode, so later steps leave a Fallback mode untouched. -/
def gps_reader_step (dist : ℚ × ℚ → ℚ × ℚ → ℚ) (start_time : ℚ)
    (st : SysState) (line : NMEALine) (now : ℚ) : SysState :=
  match line with
  | .gga fix =>
    let r := DetectorSpeed.SpeedDetector.process dist st.speed fix
    let mode :=
      if r.detected = true ∧ st.autonomous_mode = false then
        (if STABILIZATION_DURATION < now - start_time then true
         else st.autonomous_mode)
      else st.autonomous_mode
    ⟨r.state, st.snr, mode⟩
  | .gsv batch =>
    let r := DetectorSnr.SNRDetector.process_gsv_for_snr st.snr batch now
    let mode :=
      if r.detected = true ∧ st.autonomous_mode = false then
        (if STABILIZATION_DURATION < now - start_time then true
         else st.autonomous_mode)
      else st.autonomous_mode
    ⟨st.speed, r.state, mode⟩

/-- Iterating `gps_reader_step` over a timed line sequence. -/
def gps_reader_run (dist : ℚ × ℚ → ℚ × ℚ → ℚ) (start_time : ℚ)
    (st : SysState) : List (NMEALine × ℚ) → SysState
  | [] => st
  | (l, t) :: evs =>
    gps_reader_run dist start_time (gps_reader_step dist start_time st l t) evs

/-- Number of Tracking-to-Fallback transitions along a run. -/
def modeSwitchCount (dist : ℚ × ℚ → ℚ × ℚ → ℚ) (start_time : ℚ)
    (st : SysState) : List (NMEALine × ℚ) → ℕ
  | [] => 0
  | (l, t) :: evs =>
    let st1 := gps_reader_step dist start_time st l t
    (if st.autonomous_mode = false ∧ st1.autonomous_mode = true then 1
     else 0) + modeSwitchCount dist start_time st1 evs

end FinalMapProject

-- ===================== theorems =====================

namespace DetectorSpeed

theorem process_quality_zero (dist : ℚ × ℚ → ℚ × ℚ → ℚ) (s : SpeedState)
    (fix : Fix) (h : fix.quality = 0) :
    SpeedDetector.process dist s fix = ⟨.noFix, none, false, s⟩ := by
  simp [SpeedDetector.process, h]

theorem run_all_quality_zero (dist : ℚ × ℚ → ℚ × ℚ → ℚ) (s : SpeedState)
    (fixes : List Fix) (h : ∀ f ∈ fixes, f.quality = 0) :
    SpeedDetector.run dist s fixes =
      (fixes.map fun _ => ⟨.noFix, none, false, s⟩, s) := by
  induction fixes with
  | nil => simp [SpeedDetector.run]
  | cons f fs ih =>
    have hf : f.quality = 0 := h f (by simp)
    have hs : SpeedDetector.process dist s f = ⟨.noFix, none, false, s⟩ :=
      process_quality_zero dist s f hf
    simp [SpeedDetector.run, hs, ih fun g hg => h g (by simp [hg])]

theorem process_confirmed_mono (dist : ℚ × ℚ → ℚ × ℚ → ℚ) (s : SpeedState)
    (fix : Fix) (h : s.spoof_confirmed = true) :
    (SpeedDetector.process dist s fix).state.spoof_confirmed = true := by
  unfold SpeedDetector.process
  repeat' split
  all_goals try simp_all
  all_goals repeat' split
  all_goals simp_all

theorem process_state_confirmed_cases (dist : ℚ × ℚ → ℚ × ℚ → ℚ)
    (s : SpeedState) (fix : Fix)
    (h : (SpeedDetector.process dist s fix).state.spoof_confirmed = true) :
    s.spoof_confirmed = true ∨
      (SpeedDetector.process dist s fix).verdict = .spoofingConfirmed := by
  revert h
  unfold SpeedDetector.process
  repeat' split
  all_goals try simp_all
  all_goals repeat' split
  all_goals simp_all

theorem process_verdict_confirmed (dist : ℚ × ℚ → ℚ × ℚ → ℚ)
    (s : SpeedState) (fix : Fix)
    (h : (SpeedDetector.process dist s fix).verdict = .spoofingConfirmed) :
    s.spoof_confirmed = false ∧
      (SpeedDetector.process dist s fix).state.spoof_confirmed = true := by
  revert h
  unfold SpeedDetector.process
  repeat' split
  all_goals try simp_all
  all_goals repeat' split
  all_goals simp_all

end DetectorSpeed

namespace DetectorSpeed

theorem process_invSp (dist : ℚ × ℚ → ℚ × ℚ → ℚ) (s : SpeedState) (fix : Fix)
    (h : InvSp s) : InvSp (SpeedDetector.process dist s fix).state := by
  unfold InvSp at h ⊢
  unfold SpeedDetector.process
  repeat' split
  all_goals try simp_all
  all_goals repeat' split
  all_goals simp_all

theorem process_after_confirmed (dist : ℚ × ℚ → ℚ × ℚ → ℚ) (s : SpeedState)
    (fix : Fix) (h : InvSp s) (hc : s.spoof_confirmed = true)
    (hq : fix.quality ≠ 0) :
    SpeedDetector.process dist s fix =
      ⟨.normal, none, false,
        { s with last_position := some (fix.lat, fix.lon),
                 last_time := some fix.timestamp }⟩ := by
  obtain ⟨hst, hph⟩ := h hc
  unfold SpeedDetector.process
  repeat' split
  all_goals simp_all

theorem run_invSp (dist : ℚ × ℚ → ℚ × ℚ → ℚ) (fixes : List Fix) :
    ∀ s : SpeedState, InvSp s → InvSp (SpeedDetector.run dist s fixes).2 := by
  induction fixes with
  | nil => intro s hs; simpa [SpeedDetector.run] using hs
  | cons f fs ih =>
    intro s hs
    simpa [SpeedDetector.run] using ih _ (process_invSp dist s f hs)

theorem run_confirmed_mono (dist : ℚ × ℚ → ℚ × ℚ → ℚ) (fixes : List Fix) :
    ∀ s : SpeedState, s.spoof_confirmed = true →
      (SpeedDetector.run dist s fixes).2.spoof_confirmed = true := by
  induction fixes with
  | nil => intro s hs; simpa [SpeedDetector.run] using hs
  | cons f fs ih =>
    intro s hs
    simpa [SpeedDetector.run] using ih _ (process_confirmed_mono dist s f hs)

theorem confirmedCount_cons (r : SpeedResult) (rs : List SpeedResult) :
    confirmedCount (r :: rs) =
      (if r.verdict = .spoofingConfirmed then 1 else 0) + confirmedCount rs := by
  by_cases h : r.verdict = .spoofingConfirmed <;>
    simp [confirmedCount, List.filter, h, Nat.add_comm]

theorem run_count_zero_of_confirmed (dist : ℚ × ℚ → ℚ × ℚ → ℚ)
    (fixes : List Fix) :
    ∀ s : SpeedState, s.spoof_confirmed = true →
      confirmedCount (SpeedDetector.run dist s fixes).1 = 0 := by
  induction fixes with
  | nil => intro s _; simp [SpeedDetector.run, confirmedCount]
  | cons f fs ih =>
    intro s hs
    have hv : (SpeedDetector.process dist s f).verdict ≠ .spoofingConfirmed := by
      intro hcontra
      have := (process_verdict_confirmed dist s f hcontra).1
      rw [hs] at this
      exact Bool.true_eq_false.mp this
    simp only [SpeedDetector.run, confirmedCount_cons, if_neg hv]
    simpa using ih _ (process_confirmed_mono dist s f hs)

theorem run_count_le_one (dist : ℚ × ℚ → ℚ × ℚ → ℚ) (fixes : List Fix) :
    ∀ s : SpeedState, confirmedCount (SpeedDetector.run dist s fixes).1 ≤ 1 := by
  induction fixes with
  | nil => intro s; simp [SpeedDetector.run, confirmedCount]
  | cons f fs ih =>
    intro s
    simp only [SpeedDetector.run, confirmedCount_cons]
    by_cases hv : (SpeedDetector.process dist s f).verdict = .spoofingConfirmed
    · have hconf := (process_verdict_confirmed dist s f hv).2
      have := run_count_zero_of_confirmed dist fs _ hconf
      simp [hv, this]
    · simpa [hv] using ih (SpeedDetector.process dist s f).state

end DetectorSpeed

namespace DetectorSpeed

/-- Claim C7: a fix with quality code 0 makes `SpeedDetector.process` return
the `NO FIX` verdict with the detector state fully unchanged, and a sequence
consisting only of quality-0 fixes keeps every call in the `NO FIX` regime
with the reference fix (and all other state) never updated. -/
theorem speed_nofix_frame (dist : ℚ × ℚ → ℚ × ℚ → ℚ) (s : SpeedState)
    (fix : Fix) (fixes : List Fix) (hq : fix.quality = 0)
    (hall : ∀ f ∈ fixes, f.quality = 0) :
    SpeedDetector.process dist s fix = ⟨.noFix, none, false, s⟩ ∧
    SpeedDetector.run dist s fixes =
      (fixes.map fun _ => ⟨.noFix, none, false, s⟩, s) :=
  ⟨process_quality_zero dist s fix hq, run_all_quality_zero dist s fixes hall⟩

/-- Claim C7 witness: the frame property evaluated on a concrete quality-0
fix and a concrete all-quality-0 trace. -/
theorem speed_nofix_frame_witness :
    SpeedDetector.process distZero initSpeedState ⟨0, 5, 5, 5⟩ =
      ⟨.noFix, none, false, initSpeedState⟩ ∧
    SpeedDetector.run distZero initSpeedState [⟨0, 5, 5, 5⟩, ⟨0, 1, 2, 3⟩] =
      (([⟨0, 5, 5, 5⟩, ⟨0, 1, 2, 3⟩] : List Fix).map
          fun _ => ⟨.noFix, none, false, initSpeedState⟩, initSpeedState) :=
  speed_nofix_frame distZero initSpeedState ⟨0, 5, 5, 5⟩
    [⟨0, 5, 5, 5⟩, ⟨0, 1, 2, 3⟩] rfl (by decide)

/-- Claim C1 counterexample: with a reference fix stored and quality 1, a
call that returns `STABILIZING` leaves the stored reference position and
time untouched, so they do not equal the current fix's position and time,
refuting the claim that they are updated on every verdict. -/
theorem speed_ref_update_counterexample :
    (SpeedDetector.process distZero
        ⟨some (0, 0), some 0, false, 0, false, 0, false⟩
        ⟨1, 1, 1, 1⟩).verdict = .stabilizing ∧
    (SpeedDetector.process distZero
        ⟨some (0, 0), some 0, false, 0, false, 0, false⟩
        ⟨1, 1, 1, 1⟩).state.last_position = some (0, 0) ∧
    ¬((SpeedDetector.process distZero
        ⟨some (0, 0), some 0, false, 0, false, 0, false⟩
        ⟨1, 1, 1, 1⟩).state.last_position = some (1, 1) ∧
      (SpeedDetector.process distZero
        ⟨some (0, 0), some 0, false, 0, false, 0, false⟩
        ⟨1, 1, 1, 1⟩).state.last_time = some 1) := by
  norm_num [SpeedDetector.process, distZero, calcDt, calcSpeed, STABILIZATION_SPEED]

/-- Claim C1 (amended): for a quality-positive fix with a reference fix
stored, the reference position and time are replaced by the current fix
exactly when the call returns `NORMAL`; on the early-returning verdicts
(`STABILIZING`, `SPEED_ANOMALY`, `SPOOFING_ANALYSIS`, `SPOOFING_CONFIRMED`)
the stored reference is left unchanged. -/
theorem speed_ref_update_iff_normal (dist : ℚ × ℚ → ℚ × ℚ → ℚ)
    (s : SpeedState) (fix : Fix) (hq : fix.quality ≠ 0)
    (hp : s.last_position ≠ none) :
    ((SpeedDetector.process dist s fix).verdict = .normal →
      (SpeedDetector.process dist s fix).state.last_position =
          some (fix.lat, fix.lon) ∧
      (SpeedDetector.process dist s fix).state.last_time =
          some fix.timestamp) ∧
    ((SpeedDetector.process dist s fix).verdict ≠ .normal →
      (SpeedDetector.process dist s fix).state.last_position =
          s.last_position ∧
      (SpeedDetector.process dist s fix).state.last_time = s.last_time) := by
  obtain ⟨p, hp'⟩ := Option.ne_none_iff_exists'.mp hp
  unfold SpeedDetector.process
  repeat' split
  all_goals try simp_all
  all_goals repeat' split
  all_goals simp_all

/-- Claim C1 witness: the amended property evaluated on a concrete call that
returns `NORMAL` and does update the reference. -/
theorem speed_ref_update_iff_normal_witness :
    (SpeedDetector.process distZero
        ⟨some (0, 0), some 0, true, 4, false, 0, false⟩
        ⟨1, 2, 3, 10⟩).state.last_position = some (2, 3) ∧
    (SpeedDetector.process distZero
        ⟨some (0, 0), some 0, true, 4, false, 0, false⟩
        ⟨1, 2, 3, 10⟩).state.last_time = some 10 := by
  have h := speed_ref_update_iff_normal distZero
    ⟨some (0, 0), some 0, true, 4, false, 0, false⟩ ⟨1, 2, 3, 10⟩
    (by decide) (by simp)
  exact h.1 (by norm_num [SpeedDetector.process, distZero, calcDt, calcSpeed, STABILIZATION_SPEED,
    SPOOFING_SPEED_THRESHOLD, DISTANCE_JUMP_THRESHOLD])

/-- Claim C8 counterexample: with a stored reference time 10 and a current
fix timestamped 5 (unordered timestamps), `dt` is `-5`, not the claimed
fallback of `1`; the reported speed for that call is `0` (not `dist / 1`). -/
theorem speed_dt_counterexample :
    calcDt (some 10) 5 = -5 ∧ ¬calcDt (some 10) 5 = 1 ∧
    (SpeedDetector.process (fun _ _ => (100 : ℚ))
        ⟨some (0, 0), some 10, false, 0, false, 0, false⟩
        ⟨1, 1, 1, 5⟩).value = some 0 := by
  norm_num [SpeedDetector.process, calcDt, calcSpeed, STABILIZATION_SPEED]

/-- Claim C8 (amended): `dt` falls back to `1` exactly when no reference
time is stored; when a reference exists, `dt` is the (possibly nonpositive)
difference `current - reference`. The speed computation never divides by
zero: `speed = dist / dt` when `dt > 0` and `0` otherwise, so a call whose
timestamps are unordered reports a speed of `0` (or no speed at all). -/
theorem speed_dt_amended :
    (∀ cur : ℚ, calcDt none cur = 1) ∧
    (∀ t cur : ℚ, calcDt (some t) cur = cur - t) ∧
    (∀ d dt : ℚ, 0 < dt → calcSpeed d dt = d / dt) ∧
    (∀ d dt : ℚ, dt ≤ 0 → calcSpeed d dt = 0) ∧
    (∀ (dist : ℚ × ℚ → ℚ × ℚ → ℚ) (s : SpeedState) (fix : Fix) (t : ℚ),
      fix.quality ≠ 0 → s.last_time = some t → fix.timestamp ≤ t →
        (SpeedDetector.process dist s fix).value = none ∨
        (SpeedDetector.process dist s fix).value = some 0) := by
  refine ⟨fun cur => rfl, fun t cur => rfl,
    fun d dt h => by simp [calcSpeed, h],
    fun d dt h => by simp [calcSpeed, not_lt.mpr h], ?_⟩
  intro dist s fix t hq hlt hle
  have hdt : calcDt s.last_time fix.timestamp ≤ 0 := by
    rw [hlt]
    simp only [calcDt]
    linarith
  have hsp : ∀ d : ℚ, calcSpeed d (calcDt s.last_time fix.timestamp) = 0 :=
    fun d => by simp [calcSpeed, not_lt.mpr hdt]
  unfold SpeedDetector.process
  repeat' split
  all_goals try simp_all
  all_goals repeat' split
  all_goals simp_all

/-- Claim C8 witness: the amended property evaluated with no reference time
stored and on a concrete unordered-timestamp call. -/
theorem speed_dt_amended_witness :
    calcDt none 7 = 1 ∧
    ((SpeedDetector.process (fun _ _ => (100 : ℚ))
        ⟨some (0, 0), some 10, false, 0, false, 0, false⟩
        ⟨1, 1, 1, 5⟩).value = none ∨
      (SpeedDetector.process (fun _ _ => (100 : ℚ))
        ⟨some (0, 0), some 10, false, 0, false, 0, false⟩
        ⟨1, 1, 1, 5⟩).value = some 0) := by
  have h := speed_dt_amended
  exact ⟨h.1 7, h.2.2.2.2 (fun _ _ => (100 : ℚ))
    ⟨some (0, 0), some 10, false, 0, false, 0, false⟩ ⟨1, 1, 1, 5⟩ 10
    (by decide) rfl (by norm_num)⟩

/-- Claim C10: starting from the initial state, `SPOOFING_CONFIRMED` is
returned at most once over any fix sequence; once the confirmed flag is
set, a further quality-positive fix yields `NORMAL` and resumes updating
the reference fix, and no anomaly/analysis/confirmed verdict ever recurs. -/
theorem speed_confirmed_at_most_once (dist : ℚ × ℚ → ℚ × ℚ → ℚ)
    (fixes : List Fix) (fix : Fix) :
    confirmedCount (SpeedDetector.run dist initSpeedState fixes).1 ≤ 1 ∧
    ((SpeedDetector.run dist initSpeedState fixes).2.spoof_confirmed = true →
      (fix.quality ≠ 0 →
        SpeedDetector.process dist
            (SpeedDetector.run dist initSpeedState fixes).2 fix =
          ⟨.normal, none, false,
            { (SpeedDetector.run dist initSpeedState fixes).2 with
                last_position := some (fix.lat, fix.lon),
                last_time := some fix.timestamp }⟩) ∧
      (SpeedDetector.process dist
          (SpeedDetector.run dist initSpeedState fixes).2 fix).verdict ≠
        .speedAnomaly ∧
      (SpeedDetector.process dist
          (SpeedDetector.run dist initSpeedState fixes).2 fix).verdict ≠
        .spoofingAnalysis ∧
      (SpeedDetector.process dist
          (SpeedDetector.run dist initSpeedState fixes).2 fix).verdict ≠
        .spoofingConfirmed) := by
  constructor
  · exact run_count_le_one dist fixes initSpeedState
  · intro hc
    have hinv : InvSp (SpeedDetector.run dist initSpeedState fixes).2 :=
      run_invSp dist fixes initSpeedState
        (fun h => absurd h Bool.false_ne_true)
    refine ⟨fun hq => process_after_confirmed dist _ fix hinv hc hq, ?_⟩
    by_cases hq : fix.quality = 0
    · rw [process_quality_zero dist _ fix hq]
      exact ⟨by simp, by simp, by simp⟩
    · rw [process_after_confirmed dist _ fix hinv hc hq]
      exact ⟨by simp, by simp, by simp⟩

/-- Claim C10 witness: the at-most-once property evaluated on a concrete
trace that reaches confirmation, followed by a quality-1 fix. -/
theorem speed_confirmed_at_most_once_witness :
    confirmedCount (SpeedDetector.run distDelta initSpeedState confirmTrace).1 ≤ 1 ∧
    SpeedDetector.process distDelta
        (SpeedDetector.run distDelta initSpeedState confirmTrace).2
        ⟨1, 2, 3, 10⟩ =
      ⟨.normal, none, false,
        { (SpeedDetector.run distDelta initSpeedState confirmTrace).2 with
            last_position := some (2, 3), last_time := some 10 }⟩ := by
  have h := speed_confirmed_at_most_once distDelta confirmTrace ⟨1, 2, 3, 10⟩
  refine ⟨h.1, (h.2 ?_).1 (by decide)⟩
  norm_num [SpeedDetector.run, SpeedDetector.process, distDelta, calcDt,
    calcSpeed, STABILIZATION_SPEED, SPOOFING_SPEED_THRESHOLD,
    STABILIZATION_COUNT, DISTANCE_JUMP_THRESHOLD, initSpeedState, confirmTrace]

end DetectorSpeed

namespace DetectorSnr

theorem mem_keys_setKey {β : Type} (m : List (ℕ × β)) (p q : ℕ) (v : β) :
    q ∈ keys (setKey m p v) ↔ q ∈ keys m ∨ q = p := by
  induction m with
  | nil => simp [setKey, keys]
  | cons e rest ih =>
    obtain ⟨a, w⟩ := e
    by_cases h : a = p
    · subst h
      simp [setKey, keys]
      tauto
    · simp [setKey, h, keys] at ih ⊢
      tauto

theorem nodup_keys_setKey {β : Type} (m : List (ℕ × β)) (p : ℕ) (v : β)
    (h : (keys m).Nodup) : (keys (setKey m p v)).Nodup := by
  induction m with
  | nil => simp [setKey, keys]
  | cons e rest ih =>
    obtain ⟨a, w⟩ := e
    simp only [keys, List.map_cons, List.nodup_cons] at h
    by_cases ha : a = p
    · subst ha
      simpa [setKey, keys] using h
    · have := ih h.2
      simp only [setKey, if_neg ha, keys, List.map_cons, List.nodup_cons]
      refine ⟨?_, this⟩
      intro hmem
      rcases (mem_keys_setKey rest p a v).mp hmem with hin | heq
      · exact h.1 hin
      · exact ha heq

theorem getKey?_setKey_self {β : Type} (m : List (ℕ × β)) (p : ℕ) (v : β) :
    getKey? (setKey m p v) p = some v := by
  induction m with
  | nil => simp [setKey, getKey?]
  | cons e rest ih =>
    obtain ⟨a, w⟩ := e
    by_cases h : a = p
    · simp [setKey, h, getKey?]
    · simp [setKey, h, getKey?, ih]

theorem getKey?_setKey_ne {β : Type} (m : List (ℕ × β)) (p q : ℕ) (v : β)
    (h : q ≠ p) : getKey? (setKey m p v) q = getKey? m q := by
  induction m with
  | nil => simp [setKey, getKey?, Ne.symm h]
  | cons e rest ih =>
    obtain ⟨a, w⟩ := e
    by_cases ha : a = p
    · subst ha
      simp [setKey, getKey?, Ne.symm h]
    · by_cases haq : a = q <;> simp [setKey, ha, getKey?, haq, ih, h]

theorem mem_keys_updFiltered (m : SatMap) (e : ℕ × ℚ) (p : ℕ)
    (h : p ∈ keys m) : p ∈ keys (updFiltered m e) := by
  unfold updFiltered
  split
  · exact (mem_keys_setKey m e.1 p e.2).mpr (Or.inl h)
  · exact h

theorem mem_keys_foldl_updFiltered (obs : List (ℕ × ℚ)) :
    ∀ (m : SatMap) (p : ℕ), p ∈ keys m →
      p ∈ keys (obs.foldl updFiltered m) := by
  induction obs with
  | nil => intro m p h; simpa using h
  | cons e rest ih =>
    intro m p h
    simpa [List.foldl_cons] using ih _ p (mem_keys_updFiltered m e p h)

theorem nodup_keys_foldl_updFiltered (obs : List (ℕ × ℚ)) :
    ∀ m : SatMap, (keys m).Nodup → (keys (obs.foldl updFiltered m)).Nodup := by
  induction obs with
  | nil => intro m h; simpa using h
  | cons e rest ih =>
    intro m h
    have hstep : (keys (updFiltered m e)).Nodup := by
      unfold updFiltered
      split
      · exact nodup_keys_setKey m e.1 e.2 h
      · exact h
    simpa [List.foldl_cons] using ih _ hstep

theorem getKey?_foldl_updFiltered_below (obs : List (ℕ × ℚ)) :
    ∀ (m : SatMap) (p : ℕ),
      (∀ v : ℚ, (p, v) ∈ obs → v < SNR_MIN_THRESHOLD) →
      getKey? (obs.foldl updFiltered m) p = getKey? m p := by
  induction obs with
  | nil => intro m p _; simp
  | cons e rest ih =>
    intro m p h
    have hrest : ∀ v : ℚ, (p, v) ∈ rest → v < SNR_MIN_THRESHOLD :=
      fun v hv => h v (by simp [hv])
    rw [List.foldl_cons, ih _ p hrest]
    unfold updFiltered
    by_cases hp : e.1 = p
    · have he : e.2 < SNR_MIN_THRESHOLD := h e.2 (by simp [← hp])
      rw [if_neg (not_le.mpr he)]
    · split
      · exact getKey?_setKey_ne m e.1 p e.2 fun hq => hp hq.symm
      · rfl

theorem updFiltered_eq_ite (m : SatMap) (e : ℕ × ℚ) :
    updFiltered m e = if SNR_MIN_THRESHOLD ≤ e.2 then setKey m e.1 e.2 else m :=
  rfl

theorem latestAboveFloor_concat (obs : List (ℕ × ℚ)) (e : ℕ × ℚ) (p : ℕ) :
    latestAboveFloor (obs ++ [e]) p =
      if e.1 = p ∧ SNR_MIN_THRESHOLD ≤ e.2 then some e.2
      else latestAboveFloor obs p := by
  unfold latestAboveFloor
  rw [List.filter_append]
  by_cases h : e.1 = p ∧ SNR_MIN_THRESHOLD ≤ e.2
  · rw [if_pos h]
    have hf : List.filter
        (fun x => decide (x.1 = p) && decide (SNR_MIN_THRESHOLD ≤ x.2)) [e] =
        [e] := by
      simp [List.filter, h.1, h.2]
    rw [hf, List.getLast?_concat]
    rfl
  · rw [if_neg h]
    have hf : List.filter
        (fun x => decide (x.1 = p) && decide (SNR_MIN_THRESHOLD ≤ x.2)) [e] =
        ([] : List (ℕ × ℚ)) := by
      rcases not_and_or.mp h with h1 | h1 <;> simp [List.filter, h1]
    rw [hf, List.append_nil]

theorem getKey?_foldl_updFiltered_latest (obs : List (ℕ × ℚ)) (p : ℕ) :
    getKey? (obs.foldl updFiltered []) p = latestAboveFloor obs p := by
  induction obs using List.reverseRecOn with
  | nil => simp [latestAboveFloor, getKey?]
  | append_singleton obs e ih =>
    rw [List.foldl_append, List.foldl_cons, List.foldl_nil,
      latestAboveFloor_concat, updFiltered_eq_ite]
    by_cases h2 : SNR_MIN_THRESHOLD ≤ e.2
    · rw [if_pos h2]
      by_cases h1 : e.1 = p
      · rw [if_pos ⟨h1, h2⟩, h1, getKey?_setKey_self]
      · rw [if_neg fun hc => h1 hc.1,
          getKey?_setKey_ne _ e.1 p e.2 fun hq => h1 hq.symm, ih]
    · rw [if_neg h2, if_neg fun hc => h2 hc.2, ih]

end DetectorSnr

namespace DetectorSnr

theorem ingest_eq (b : List (ℕ × ℚ)) :
    ∀ a f : SatMap, ingest a f b = (b.foldl updAll a, b.foldl updFiltered f) := by
  induction b with
  | nil => intro a f; rfl
  | cons e rest ih =>
    intro a f
    simp only [ingest, List.foldl_cons] at ih ⊢
    exact ih (updAll a e) (updFiltered f e)

theorem ingest_fst (a f : SatMap) (b : List (ℕ × ℚ)) :
    (ingest a f b).1 = b.foldl updAll a := by
  rw [ingest_eq]

theorem ingest_snd (a f : SatMap) (b : List (ℕ × ℚ)) :
    (ingest a f b).2 = b.foldl updFiltered f := by
  rw [ingest_eq]

theorem process_state_filtered (s : SNRState) (b : List (ℕ × ℚ)) (t : ℚ) :
    (SNRDetector.process_gsv_for_snr s b t).state.filtered_sats =
      (ingest s.all_sats s.filtered_sats b).2 := by
  simp only [SNRDetector.process_gsv_for_snr]
  repeat' split
  all_goals rfl

theorem process_state_all (s : SNRState) (b : List (ℕ × ℚ)) (t : ℚ) :
    (SNRDetector.process_gsv_for_snr s b t).state.all_sats =
      (ingest s.all_sats s.filtered_sats b).1 := by
  simp only [SNRDetector.process_gsv_for_snr]
  repeat' split
  all_goals rfl

theorem process_state_prev_cases (s : SNRState) (b : List (ℕ × ℚ)) (t : ℚ) :
    (SNRDetector.process_gsv_for_snr s b t).state.previous_avg_sats =
        s.previous_avg_sats ∨
      (SNRDetector.process_gsv_for_snr s b t).state.previous_avg_sats =
        (ingest s.all_sats s.filtered_sats b).2 := by
  simp only [SNRDetector.process_gsv_for_snr]
  repeat' split
  all_goals first | exact Or.inl rfl | exact Or.inr rfl

theorem lostPRNs_eq_nil_of_subset (prev curr : SatMap)
    (h : ∀ p, p ∈ keys prev → p ∈ keys curr) : lostPRNs prev curr = [] := by
  unfold lostPRNs
  rw [List.filter_eq_nil_iff]
  intro p hp
  simp only [decide_eq_true_eq, not_not]
  exact h p (List.mem_dedup.mp hp)

theorem compare_no_disappeared (prev curr : SatMap)
    (h : lostPRNs prev curr = []) :
    (∀ c ∈ (compare_sat_data prev curr).1, ∀ n, c ≠ Cause.disappearedSats n) ∧
    (compare_sat_data prev curr).2 = false := by
  unfold compare_sat_data
  simp only [h, List.length_nil]
  constructor
  · intro c hc n hceq
    subst hceq
    by_cases hn : NEW_PRNS_THRESHOLD ≤ (newPRNs prev curr).length <;>
      by_cases hj : snrJumpList prev curr = [] <;>
      simp [hn, hj, DISAPPEARED_PRNS_THRESHOLD, INSTANT_SHOCK_THRESHOLD] at hc
  · simp [INSTANT_SHOCK_THRESHOLD]

theorem process_causes_safe (s : SNRState) (b : List (ℕ × ℚ)) (t : ℚ)
    (hinv : InvSnr s) :
    ∀ c ∈ (SNRDetector.process_gsv_for_snr s b t).causes, ∀ n,
      c ≠ Cause.disappearedSats n := by
  have hsub : ∀ p, p ∈ keys s.previous_avg_sats →
      p ∈ keys (ingest s.all_sats s.filtered_sats b).2 := by
    intro p hp
    rw [ingest_snd]
    exact mem_keys_foldl_updFiltered b s.filtered_sats p (hinv p hp)
  have hcmp := compare_no_disappeared _ _ (lostPRNs_eq_nil_of_subset _ _ hsub)
  simp only [SNRDetector.process_gsv_for_snr]
  repeat' split
  all_goals intro c hc n
  all_goals first
    | exact hcmp.1 c hc n
    | simp at hc

theorem process_invSnr (s : SNRState) (b : List (ℕ × ℚ)) (t : ℚ)
    (hinv : InvSnr s) :
    InvSnr (SNRDetector.process_gsv_for_snr s b t).state := by
  intro p hp
  rw [process_state_filtered, ingest_snd]
  rcases process_state_prev_cases s b t with hpr | hpr
  · rw [hpr] at hp
    exact mem_keys_foldl_updFiltered b s.filtered_sats p (hinv p hp)
  · rw [hpr, ingest_snd] at hp
    exact hp

theorem run_state_filtered (evs : List (List (ℕ × ℚ) × ℚ)) :
    ∀ s : SNRState, (SNRDetector.run s evs).2.filtered_sats =
      ((evs.map Prod.fst).flatten).foldl updFiltered s.filtered_sats := by
  induction evs with
  | nil => intro s; simp [SNRDetector.run]
  | cons ev rest ih =>
    intro s
    obtain ⟨b, t⟩ := ev
    simp only [SNRDetector.run, List.map_cons, List.flatten_cons, List.foldl_append]
    rw [ih, process_state_filtered, ingest_snd]

theorem run_invSnr (evs : List (List (ℕ × ℚ) × ℚ)) :
    ∀ s : SNRState, InvSnr s → InvSnr (SNRDetector.run s evs).2 := by
  induction evs with
  | nil => intro s hs; simpa [SNRDetector.run] using hs
  | cons ev rest ih =>
    intro s hs
    obtain ⟨b, t⟩ := ev
    simpa [SNRDetector.run] using ih _ (process_invSnr s b t hs)

theorem run_no_disappeared (evs : List (List (ℕ × ℚ) × ℚ)) :
    ∀ s : SNRState, InvSnr s →
      ∀ r ∈ (SNRDetector.run s evs).1, ∀ c ∈ r.causes, ∀ n,
        c ≠ Cause.disappearedSats n := by
  induction evs with
  | nil => intro s _ r hr; simp [SNRDetector.run] at hr
  | cons ev rest ih =>
    intro s hs r hr
    obtain ⟨b, t⟩ := ev
    simp only [SNRDetector.run, List.mem_cons] at hr
    rcases hr with hr | hr
    · subst hr; exact process_causes_safe s b t hs
    · exact ih _ (process_invSnr s b t hs) r hr

end DetectorSnr

namespace DetectorSnr

/-- Claim C2 counterexample: a warm-up call with a nonempty batch returns
`STABILIZING` and leaves the comparison state unchanged, but the bounded
SNR history windows are NOT appended to (the history stays empty); the
batch only accumulates into the `all_sats`/`filtered_sats` maps. -/
theorem snr_warmup_counterexample :
    (SNRDetector.process_gsv_for_snr (initSNRState 0) [(1, 30)] 0).verdict =
      .stabilizing ∧
    (SNRDetector.process_gsv_for_snr (initSNRState 0)
        [(1, 30)] 0).state.previous_avg_sats = [] ∧
    (SNRDetector.process_gsv_for_snr (initSNRState 0)
        [(1, 30)] 0).state.snr_history = [] ∧
    (SNRDetector.process_gsv_for_snr (initSNRState 0)
        [(1, 30)] 0).state.all_sats = [(1, 30)] := by
  norm_num [SNRDetector.process_gsv_for_snr, ingest, updAll, updFiltered,
    setKey, initSNRState, STABILIZATION_DURATION, SNR_MIN_THRESHOLD]

/-- Claim C2 (amended): while elapsed time is below the warm-up duration,
`process_gsv_for_snr` returns `STABILIZING`, leaves the previous-filtered
comparison state, the SNR history windows and the anomaly counter all
unchanged, and folds the batch only into the accumulated `all_sats` and
`filtered_sats` maps. -/
theorem snr_warmup_frame (s : SNRState) (batch : List (ℕ × ℚ)) (now : ℚ)
    (h : now - s.stabilization_start_time < STABILIZATION_DURATION) :
    SNRDetector.process_gsv_for_snr s batch now =
      ⟨.stabilizing, [], false,
        { s with
            all_sats := (ingest s.all_sats s.filtered_sats batch).1,
            filtered_sats := (ingest s.all_sats s.filtered_sats batch).2 }⟩ ∧
    (SNRDetector.process_gsv_for_snr s batch now).state.snr_history =
      s.snr_history ∧
    (SNRDetector.process_gsv_for_snr s batch now).state.previous_avg_sats =
      s.previous_avg_sats ∧
    (SNRDetector.process_gsv_for_snr s batch now).state.anomaly_counter =
      s.anomaly_counter := by
  have heq : SNRDetector.process_gsv_for_snr s batch now =
      ⟨.stabilizing, [], false,
        { s with
            all_sats := (ingest s.all_sats s.filtered_sats batch).1,
            filtered_sats := (ingest s.all_sats s.filtered_sats batch).2 }⟩ := by
    simp only [SNRDetector.process_gsv_for_snr]
    rw [if_pos h]
  exact ⟨heq, by rw [heq], by rw [heq], by rw [heq]⟩

/-- Claim C2 witness: the warm-up frame property evaluated on a concrete
fresh detector and batch. -/
theorem snr_warmup_frame_witness :
    SNRDetector.process_gsv_for_snr (initSNRState 0) [(1, 30)] 0 =
      ⟨.stabilizing, [], false,
        { initSNRState 0 with
            all_sats :=
              (ingest (initSNRState 0).all_sats (initSNRState 0).filtered_sats
                [(1, 30)]).1,
            filtered_sats :=
              (ingest (initSNRState 0).all_sats (initSNRState 0).filtered_sats
                [(1, 30)]).2 }⟩ :=
  (snr_warmup_frame (initSNRState 0) [(1, 30)] 0
    (by norm_num [initSNRState, STABILIZATION_DURATION])).1

/-- Claim C3 counterexample: after PRN 1 reports SNR 30 and then SNR 10,
the filtered map still contains PRN 1 with the stale value 30 even though
its SNR in the current reporting cycle (10) is below the reliability floor,
refuting both "recomputed every cycle" and "latest observed SNR". -/
theorem snr_filtered_recompute_counterexample :
    getKey? (SNRDetector.run (initSNRState 0)
        [([(1, 30)], 0), ([(1, 10)], 1)]).2.filtered_sats 1 = some 30 ∧
    getKey? (SNRDetector.run (initSNRState 0)
        [([(1, 30)], 0), ([(1, 10)], 1)]).2.all_sats 1 = some 10 ∧
    (10 : ℚ) < SNR_MIN_THRESHOLD := by
  norm_num [SNRDetector.run, SNRDetector.process_gsv_for_snr, ingest, updAll,
    updFiltered, setKey, getKey?, initSNRState, SNR_MIN_THRESHOLD,
    STABILIZATION_DURATION, MIN_SAT_FOR_ANALYSIS]

/-- Claim C3 (amended): the filtered satellite map accumulates: after any
event sequence it maps each PRN to the most recent SNR that PRN reported at
or above the reliability floor, it contains exactly the PRNs that ever
reported an above-floor SNR (entries are never removed or recomputed), and
no PRN appears twice in it. -/
theorem snr_filtered_accumulates_latest (t0 : ℚ)
    (evs : List (List (ℕ × ℚ) × ℚ)) :
    (keys (SNRDetector.run (initSNRState t0) evs).2.filtered_sats).Nodup ∧
    ∀ p, getKey? (SNRDetector.run (initSNRState t0) evs).2.filtered_sats p =
      latestAboveFloor ((evs.map Prod.fst).flatten) p := by
  have hrf := run_state_filtered evs (initSNRState t0)
  constructor
  · rw [hrf]
    exact nodup_keys_foldl_updFiltered _ _ (by simp [initSNRState, keys])
  · intro p
    rw [hrf]
    exact getKey?_foldl_updFiltered_latest _ p

/-- Claim C4 evaluation at the failing input: after warm-up with six strong
satellites and one baseline comparison, a wholesale constellation
replacement (five brand-new PRNs, none of the six old ones re-reported)
still yields `NORMAL` — the computed lost-PRN set is empty because the
filtered map never shrinks, so the instant-shock clause cannot fire. -/
theorem snr_instant_shock_dead_eval :
    ((SNRDetector.run (initSNRState 0) shockTrace).1.map
        fun r => (r.verdict, r.detected)) =
      [(.stabilizing, false), (.normal, false), (.normal, false)] ∧
    lostPRNs
        (SNRDetector.run (initSNRState 0)
          [(snrBatch6, 0), (snrBatch6, 61)]).2.previous_avg_sats
        (SNRDetector.run (initSNRState 0) shockTrace).2.filtered_sats = [] ∧
    (newPRNs
        (SNRDetector.run (initSNRState 0)
          [(snrBatch6, 0), (snrBatch6, 61)]).2.previous_avg_sats
        (SNRDetector.run (initSNRState 0) shockTrace).2.filtered_sats).length =
      5 := by
  have h1 : SNRDetector.process_gsv_for_snr (initSNRState 0) snrBatch6 0 =
      ⟨.stabilizing, [], false, shockS1⟩ := by
    simp only [SNRDetector.process_gsv_for_snr, initSNRState]
    rw [if_pos (show (0 : ℚ) - 0 < STABILIZATION_DURATION by
      norm_num [STABILIZATION_DURATION])]
    decide
  have h2 : SNRDetector.process_gsv_for_snr shockS1 snrBatch6 61 =
      ⟨.normal, [], false, shockS2⟩ := by
    simp only [SNRDetector.process_gsv_for_snr, shockS1]
    rw [if_neg (show ¬((61 : ℚ) - 0 < STABILIZATION_DURATION) by
      norm_num [STABILIZATION_DURATION])]
    decide
  have hjump : snrJumpList snrSat6 snrSat11 = [] := by
    simp only [snrJumpList]
    rw [show (keys snrSat11).dedup = [1, 2, 3, 4, 5, 6, 7, 8, 9, 10, 11]
      from by decide]
    norm_num [List.filterMap, getKey?, snrSat6, snrSat11,
      SNR_JUMP_THRESHOLD, max_def]
  have hcmp : compare_sat_data snrSat6 snrSat11 = ([.newSats 5], false) := by
    simp only [compare_sat_data, hjump]
    rw [show newPRNs snrSat6 snrSat11 = [7, 8, 9, 10, 11] from by decide,
      show lostPRNs snrSat6 snrSat11 = [] from by decide]
    decide
  have h3 : SNRDetector.process_gsv_for_snr shockS2 snrBatchNew5 62 =
      ⟨.normal, [], false, shockS3⟩ := by
    simp only [SNRDetector.process_gsv_for_snr, shockS2]
    rw [if_neg (show ¬((62 : ℚ) - 0 < STABILIZATION_DURATION) by
      norm_num [STABILIZATION_DURATION])]
    rw [show ingest snrSat6 snrSat6 snrBatchNew5 = (snrSat11, snrSat11)
      from by decide]
    rw [hcmp]
    decide
  have hrun2 : (SNRDetector.run (initSNRState 0)
      [(snrBatch6, 0), (snrBatch6, 61)]).2 = shockS2 := by
    simp [SNRDetector.run, h1, h2]
  have hrun3 : (SNRDetector.run (initSNRState 0) shockTrace).2 = shockS3 := by
    simp [shockTrace, SNRDetector.run, h1, h2, h3]
  refine ⟨?_, ?_, ?_⟩
  · simp [shockTrace, SNRDetector.run, h1, h2, h3]
  · rw [hrun2, hrun3]
    decide
  · rw [hrun2, hrun3]
    decide

/-- Claim C9: the filtered map's key set only grows on every call; a PRN
whose batch entries are all below the floor keeps its previous value; on
every reachable state the previous filtered snapshot's keys are contained
in the filtered map's keys, so the lost-PRN set of any next comparison is
empty and the disappeared-satellites cause is never emitted. -/
theorem snr_filtered_keys_monotone_lost_empty (t0 : ℚ)
    (evs : List (List (ℕ × ℚ) × ℚ)) (batch : List (ℕ × ℚ)) :
    (∀ (s : SNRState) (b : List (ℕ × ℚ)) (t : ℚ) (p : ℕ),
      p ∈ keys s.filtered_sats →
      p ∈ keys (SNRDetector.process_gsv_for_snr s b t).state.filtered_sats) ∧
    (∀ (s : SNRState) (b : List (ℕ × ℚ)) (t : ℚ) (p : ℕ),
      (∀ v : ℚ, (p, v) ∈ b → v < SNR_MIN_THRESHOLD) →
      getKey? (SNRDetector.process_gsv_for_snr s b t).state.filtered_sats p =
        getKey? s.filtered_sats p) ∧
    (∀ p, p ∈ keys
        (SNRDetector.run (initSNRState t0) evs).2.previous_avg_sats →
      p ∈ keys (SNRDetector.run (initSNRState t0) evs).2.filtered_sats) ∧
    lostPRNs (SNRDetector.run (initSNRState t0) evs).2.previous_avg_sats
      (ingest (SNRDetector.run (initSNRState t0) evs).2.all_sats
        (SNRDetector.run (initSNRState t0) evs).2.filtered_sats batch).2 =
      [] ∧
    (∀ r ∈ (SNRDetector.run (initSNRState t0) evs).1, ∀ c ∈ r.causes, ∀ n,
      c ≠ Cause.disappearedSats n) := by
  have hinv0 : InvSnr (initSNRState t0) := by
    intro p hp
    simp [initSNRState, keys] at hp
  have hinv := run_invSnr evs (initSNRState t0) hinv0
  refine ⟨?_, ?_, hinv, ?_, run_no_disappeared evs (initSNRState t0) hinv0⟩
  · intro s b t p hp
    rw [process_state_filtered, ingest_snd]
    exact mem_keys_foldl_updFiltered b s.filtered_sats p hp
  · intro s b t p hp
    rw [process_state_filtered, ingest_snd]
    exact getKey?_foldl_updFiltered_below b s.filtered_sats p hp
  · apply lostPRNs_eq_nil_of_subset
    intro p hp
    rw [ingest_snd]
    exact mem_keys_foldl_updFiltered batch _ p (hinv p hp)

/-- Claim C9 witness: the monotonicity and empty-lost-set facts evaluated
on a concrete one-event trace. -/
theorem snr_filtered_keys_monotone_lost_empty_witness :
    (1 ∈ keys (SNRDetector.process_gsv_for_snr
        ⟨[], [], 0, 0, [], [(1, 30)]⟩ [] 0).state.filtered_sats) ∧
    lostPRNs
      (SNRDetector.run (initSNRState 0) [([(1, 30)], 0)]).2.previous_avg_sats
      (ingest (SNRDetector.run (initSNRState 0) [([(1, 30)], 0)]).2.all_sats
        (SNRDetector.run (initSNRState 0)
          [([(1, 30)], 0)]).2.filtered_sats [(2, 25)]).2 = [] := by
  have h := snr_filtered_keys_monotone_lost_empty 0 [([(1, 30)], 0)] [(2, 25)]
  exact ⟨h.1 ⟨[], [], 0, 0, [], [(1, 30)]⟩ [] 0 1 (by simp [keys]),
    h.2.2.2.1⟩

end DetectorSnr

namespace FinalMapProject

theorem step_mode_absorbing (dist : ℚ × ℚ → ℚ × ℚ → ℚ) (start : ℚ)
    (st : SysState) (l : NMEALine) (now : ℚ)
    (h : st.autonomous_mode = true) :
    (gps_reader_step dist start st l now).autonomous_mode = true := by
  cases l <;> simp [gps_reader_step, h]

theorem step_mode_cases (dist : ℚ × ℚ → ℚ × ℚ → ℚ) (start : ℚ)
    (st : SysState) (l : NMEALine) (now : ℚ)
    (h : (gps_reader_step dist start st l now).autonomous_mode = true) :
    st.autonomous_mode = true ∨
      (st.autonomous_mode = false ∧ STABILIZATION_DURATION < now - start) := by
  revert h
  cases l <;> simp only [gps_reader_step] <;> repeat' split
  all_goals simp_all

theorem switchCount_zero_of_true (dist : ℚ × ℚ → ℚ × ℚ → ℚ) (start : ℚ)
    (evs : List (NMEALine × ℚ)) :
    ∀ st : SysState, st.autonomous_mode = true →
      modeSwitchCount dist start st evs = 0 := by
  induction evs with
  | nil => intro st _; rfl
  | cons ev rest ih =>
    intro st hst
    obtain ⟨l, t⟩ := ev
    have h1 := step_mode_absorbing dist start st l t hst
    simp only [modeSwitchCount, hst]
    rw [ih _ h1]
    simp

theorem switchCount_le_one (dist : ℚ × ℚ → ℚ × ℚ → ℚ) (start : ℚ)
    (evs : List (NMEALine × ℚ)) :
    ∀ st : SysState, modeSwitchCount dist start st evs ≤ 1 := by
  induction evs with
  | nil => intro st; simp [modeSwitchCount]
  | cons ev rest ih =>
    intro st
    obtain ⟨l, t⟩ := ev
    simp only [modeSwitchCount]
    by_cases hs : (gps_reader_step dist start st l t).autonomous_mode = true
    · rw [switchCount_zero_of_true dist start rest _ hs]
      split <;> simp
    · have : ¬(st.autonomous_mode = false ∧
          (gps_reader_step dist start st l t).autonomous_mode = true) :=
        fun hc => hs hc.2
      rw [if_neg this]
      simpa using ih (gps_reader_step dist start st l t)

/-- Claim C5: the mode flag is monotonic: it starts as Tracking (`false`),
a step leaves a Fallback (`true`) mode Fallback, a step switches to
Fallback only from Tracking and only once the grace period has elapsed,
and along any run from the initial state the Tracking-to-Fallback
transition happens at most once. -/
theorem mode_monotonic (dist : ℚ × ℚ → ℚ × ℚ → ℚ) (t0 start : ℚ)
    (evs : List (NMEALine × ℚ)) :
    (initSysState t0).autonomous_mode = false ∧
    (∀ (st : SysState) (l : NMEALine) (now : ℚ),
      st.autonomous_mode = true →
      (gps_reader_step dist start st l now).autonomous_mode = true) ∧
    (∀ (st : SysState) (l : NMEALine) (now : ℚ),
      (gps_reader_step dist start st l now).autonomous_mode = true →
      st.autonomous_mode = true ∨
        (st.autonomous_mode = false ∧
          STABILIZATION_DURATION < now - start)) ∧
    modeSwitchCount dist start (initSysState t0) evs ≤ 1 :=
  ⟨rfl, fun st l now h => step_mode_absorbing dist start st l now h,
    fun st l now h => step_mode_cases dist start st l now h,
    switchCount_le_one dist start evs (initSysState t0)⟩

/-- Claim C5 witness: the absorbing and at-most-once facts evaluated on a
concrete Fallback state and a concrete empty run. -/
theorem mode_monotonic_witness :
    (gps_reader_step DetectorSpeed.distZero 0
        ⟨DetectorSpeed.initSpeedState, DetectorSnr.initSNRState 0, true⟩
        (.gga ⟨1, 0, 0, 0⟩) 100).autonomous_mode = true ∧
    modeSwitchCount DetectorSpeed.distZero 0 (initSysState 0) [] ≤ 1 := by
  have h := mode_monotonic DetectorSpeed.distZero 0 0 []
  exact ⟨h.2.1 _ _ _ rfl, h.2.2.2⟩

/-- Claim C6: while elapsed process time has not exceeded the startup
grace period, a `gps_reader` step never changes the mode — in particular a
confirmed detector verdict arriving during the grace period leaves the
mode Tracking. -/
theorem grace_period_no_transition (dist : ℚ × ℚ → ℚ × ℚ → ℚ)
    (start : ℚ) (st : SysState) (l : NMEALine) (now : ℚ)
    (h : now - start ≤ STABILIZATION_DURATION) :
    (gps_reader_step dist start st l now).autonomous_mode =
      st.autonomous_mode := by
  cases l <;> simp only [gps_reader_step] <;> repeat' split
  all_goals first | rfl | linarith

/-- Claim C6 witness: a step taken 10 seconds into a 30-second grace
period leaves the initial Tracking mode unchanged. -/
theorem grace_period_no_transition_witness :
    (gps_reader_step DetectorSpeed.distZero 0 (initSysState 0)
        (.gga ⟨1, 0, 0, 0⟩) 10).autonomous_mode =
      (initSysState 0).autonomous_mode :=
  grace_period_no_transition DetectorSpeed.distZero 0 (initSysState 0)
    (.gga ⟨1, 0, 0, 0⟩) 10 (by norm_num [STABILIZATION_DURATION])

end FinalMapProject
